import Mathlib

/-!
Verification of the recipe classification / parsing / orchestration core of the
LINE/Slack dinner-suggestion bot.  Python functions from the repository are
shallowly embedded as total Lean functions over `List Char` (one entry per
Unicode code point, matching Python's `str` indexing and `len`).
-/

namespace DinnerBot

/-- Whitespace per Python's `str.strip` / regex `\s` (Unicode whitespace). -/
def pyIsSpace (c : Char) : Bool :=
  c == ' ' || c == '\t' || c == '\n' || c == '\x0b' || c == '\x0c' || c == '\r' ||
  c == '\x1c' || c == '\x1d' || c == '\x1e' || c == '\x1f' || c == '\x85' || c == '\xa0' ||
  c == '\u1680' || ('\u2000' ≤ c && c ≤ '\u200a') || c == '\u2028' || c == '\u2029' ||
  c == '\u202f' || c == '\u205f' || c == '\u3000'

/-- Decimal digits per Python's regex `\d` (Unicode category Nd); the ASCII and
full-width forms are the ones that can occur in this system's ASCII/Japanese
text domain. -/
def pyIsDigit (c : Char) : Bool :=
  c.isDigit || ('０' ≤ c && c ≤ '９')

/-- Python `str.strip()`: drop leading and trailing whitespace. -/
def pyStrip (s : List Char) : List Char :=
  ((s.dropWhile pyIsSpace).reverse.dropWhile pyIsSpace).reverse

/-- Python `str.lower()` restricted to the ASCII case mapping; the Japanese
keywords this system matches are caseless, so they are unaffected. -/
def pyLower (s : List Char) : List Char :=
  s.map Char.toLower

/-- Python `str.split('\n')`: e.g. `"" ↦ [""]`, `"a\n" ↦ ["a", ""]`. -/
def splitNl : List Char → List (List Char)
  | [] => [[]]
  | c :: t =>
    match splitNl t with
    | [] => [[c]]
    | h :: r => if c == '\n' then [] :: h :: r else (c :: h) :: r

/-- Python's substring test `needle in hay` (contiguous substring). -/
def containsSub (needle : List Char) : List Char → Bool
  | [] => needle.isEmpty
  | c :: t => needle.isPrefixOf (c :: t) || containsSub needle t

/-- A recipe entry produced by `app/recipe_parser.parse_recipe_text`
(keys `name`, `description`). -/
structure Recipe where
  name : List Char
  description : List Char
deriving DecidableEq, Repr

/-- A recipe entry produced by `app/core/recipe_service.RecipeService`
(keys `number`, `name`, `description`). -/
structure CoreRecipe where
  number : List Char
  name : List Char
  description : List Char
deriving DecidableEq, Repr

/-!
## A miniature backtracking regex engine

The two `re.findall` patterns used by the parsers are compiled to a sequence of
`Pat` items and executed with Python's leftmost, greedy/lazy backtracking
search semantics.
-/

/-- One item of a compiled regex: a single-character class, a greedy `*` over a
class, a greedy or lazy capturing `+`, or a zero-width assertion on the
remaining input. -/
inductive Pat where
  | one   (p : Char → Bool)
  | star  (p : Char → Bool)
  | plusG (p : Char → Bool) (cap : Bool)
  | plusL (p : Char → Bool) (cap : Bool)
  | look  (f : List Char → Bool)

/-- Try `f` on `hi, hi-1, …, lo` (greedy preference: longest first). -/
def tryDesc (f : Nat → Option α) (lo : Nat) : Nat → Option α
  | 0 => if lo = 0 then f 0 else none
  | n + 1 =>
    if n + 1 < lo then none
    else
      match f (n + 1) with
      | some a => some a
      | none => tryDesc f lo n

/-- Try `f` on `i, i+1, …` for `fuel` candidates (lazy preference: shortest
first). -/
def tryAsc (f : Nat → Option α) : Nat → Nat → Option α
  | _, 0 => none
  | i, fuel + 1 =>
    match f i with
    | some a => some a
    | none => tryAsc f (i + 1) fuel

/-- Backtracking matcher: match the items against a prefix of `s`, passing the
rest of the input to the continuation `k`; returns the captured groups in
left-to-right order together with the input remaining after the match. -/
def matchSeq : List Pat → List Char →
    (List Char → Option (List (List Char) × List Char)) →
    Option (List (List Char) × List Char)
  | [], s, k => k s
  | .one _ :: _, [], _ => none
  | .one p :: rest, c :: s, k => if p c then matchSeq rest s k else none
  | .star p :: rest, s, k =>
    tryDesc (fun n => matchSeq rest (s.drop n) k) 0 (s.takeWhile p).length
  | .plusG p cap :: rest, s, k =>
    tryDesc (fun n => (matchSeq rest (s.drop n) k).map
      (fun r => if cap then (s.take n :: r.1, r.2) else r)) 1 (s.takeWhile p).length
  | .plusL p cap :: rest, s, k =>
    tryAsc (fun n => (matchSeq rest (s.drop n) k).map
      (fun r => if cap then (s.take n :: r.1, r.2) else r)) 1 (s.takeWhile p).length
  | .look f :: rest, s, k => if f s then matchSeq rest s k else none

/-- `re.findall`, fueled: attempt a match at each position from left to right;
on a match, record its groups and continue after it (all patterns used here
consume at least one character, so `length + 1` fuel is enough). -/
def findAllAux (pats : List Pat) : List Char → Nat → List (List (List Char))
  | _, 0 => []
  | s, fuel + 1 =>
    match matchSeq pats s (fun rem => some ([], rem)) with
    | some (caps, rem) => caps :: findAllAux pats rem fuel
    | none =>
      match s with
      | [] => []
      | _ :: t => findAllAux pats t fuel

/-- `re.findall(pattern, s)` for a compiled pattern. -/
def findAll (pats : List Pat) (s : List Char) : List (List (List Char)) :=
  findAllAux pats s (s.length + 1)

/-!
## `app/recipe_parser.parse_recipe_text`
-/

/-- Compiled form of the tier-1 pattern
`(\d+)[\.．]\s*([^\n]+)\n\s*[-－]\s*([^\n]+)` of `parse_recipe_text`. -/
def tier1Pat : List Pat :=
  [ .plusG pyIsDigit true,
    .one (fun c => c == '.' || c == '．'),
    .star pyIsSpace,
    .plusG (fun c => c != '\n') true,
    .one (fun c => c == '\n'),
    .star pyIsSpace,
    .one (fun c => c == '-' || c == '－'),
    .star pyIsSpace,
    .plusG (fun c => c != '\n') true ]

/-- Tier 1 of `parse_recipe_text`: structural-regex matches, with `name` and
`description` stripped (the leading number group is discarded). -/
def tier1 (s : List Char) : List Recipe :=
  (findAll tier1Pat s).filterMap fun caps =>
    match caps with
    | [_, name, desc] => some ⟨pyStrip name, pyStrip desc⟩
    | _ => none

/-- `re.match(r'^\d+[\.．]', line)` as a Bool: leading digits then a dot. -/
def startsNum (line : List Char) : Bool :=
  let d := line.takeWhile pyIsDigit
  !d.isEmpty &&
    (match line.drop d.length with
     | c :: _ => c == '.' || c == '．'
     | [] => false)

/-- `re.sub(r'^\d+[\.．]\s*', '', line)`: remove the leading number marker
(when present) together with the whitespace after it. -/
def stripNumMarker (line : List Char) : List Char :=
  if startsNum line then
    ((line.drop (line.takeWhile pyIsDigit).length).drop 1).dropWhile pyIsSpace
  else line

/-- `re.match(r'^[-－・]', line)` as a Bool. -/
def startsDash (line : List Char) : Bool :=
  match line with
  | c :: _ => c == '-' || c == '－' || c == '・'
  | [] => false

/-- `re.sub(r'^[-－・]\s*', '', line)`. -/
def stripDashMarker (line : List Char) : List Char :=
  if startsDash line then (line.drop 1).dropWhile pyIsSpace else line

/-- One iteration of the tier-2 line scan of `parse_recipe_text`: state is the
flushed recipes plus the currently open recipe. -/
def tier2Step (st : List Recipe × Option Recipe) (rawLine : List Char) :
    List Recipe × Option Recipe :=
  let line := pyStrip rawLine
  if line.isEmpty then st
  else if startsNum line then
    (match st.2 with
     | some r => st.1 ++ [r]
     | none => st.1,
     some ⟨stripNumMarker line, []⟩)
  else if startsDash line && st.2.isSome then
    (st.1, st.2.map fun r => ⟨r.name, stripDashMarker line⟩)
  else st

/-- Flush the still-open recipe at the end of the tier-2 iteration. -/
def flushLast (st : List Recipe × Option Recipe) : List Recipe :=
  match st.2 with
  | some r => st.1 ++ [r]
  | none => st.1

/-- Tier 2 of `parse_recipe_text`: the simple line-based scan. -/
def tier2 (s : List Char) : List Recipe :=
  flushLast ((splitNl (pyStrip s)).foldl tier2Step ([], none))

/-- The tier-3 synthetic recipe of `parse_recipe_text`: fixed placeholder name,
description truncated to 100 characters plus an ellipsis when longer. -/
def fallbackRecipe (s : List Char) : Recipe :=
  ⟨"提案されたメニュー".data,
   if s.length > 100 then s.take 100 ++ "...".data else s⟩

/-- `app/recipe_parser.parse_recipe_text`: tier-1 regex matches, else the
tier-2 line scan, else the single tier-3 synthetic recipe. -/
def parse_recipe_text (s : List Char) : List Recipe :=
  let r1 := tier1 s
  let r2 := if r1.isEmpty then tier2 s else r1
  if r2.isEmpty then [fallbackRecipe s] else r2


/-!
## `app/core/recipe_service.RecipeService._parse_recipe_response`
-/

/-- The lookahead `(?=\n\d+\.|$)`: the remaining input starts with a newline
followed by a numbered entry, or `$` holds (end of input, or a single trailing
newline, since the pattern is compiled without MULTILINE). -/
def lookNumOrEnd (s : List Char) : Bool :=
  match s with
  | [] => true
  | '\n' :: t =>
    t.isEmpty ||
      (let d := t.takeWhile pyIsDigit
       !d.isEmpty && (t.drop d.length).head? == some '.')
  | _ => false

/-- Compiled form of the pattern `(\d+)\.\s*(.+?)\n\s*-\s*(.+?)(?=\n\d+\.|$)`
of `_parse_recipe_response` (DOTALL: `.` also matches newlines, hence the lazy
groups run over every character). -/
def corePat : List Pat :=
  [ .plusG pyIsDigit true,
    .one (fun c => c == '.'),
    .star pyIsSpace,
    .plusL (fun _ => true) true,
    .one (fun c => c == '\n'),
    .star pyIsSpace,
    .one (fun c => c == '-'),
    .star pyIsSpace,
    .plusL (fun _ => true) true,
    .look lookNumOrEnd ]

/-- The regex pass of `_parse_recipe_response`: `number`, `name` and
`description` are the three groups, each stripped. -/
def coreTier1 (s : List Char) : List CoreRecipe :=
  (findAll corePat s).filterMap fun caps =>
    match caps with
    | [num, name, desc] => some ⟨pyStrip num, pyStrip name, pyStrip desc⟩
    | _ => none

/-- `re.match(r'^\d+\.', line)` as a Bool (ASCII dot only). -/
def coreStartsNum (line : List Char) : Bool :=
  let d := line.takeWhile pyIsDigit
  !d.isEmpty && (line.drop d.length).head? == some '.'

/-- `re.sub(r'^\d+\.\s*', '', line)`. -/
def coreStripNum (line : List Char) : List Char :=
  if coreStartsNum line then
    ((line.drop (line.takeWhile pyIsDigit).length).drop 1).dropWhile pyIsSpace
  else line

/-- One iteration of the fallback line scan of `_parse_recipe_response`:
a numbered line flushes the open recipe and opens a new one (its `number` is
the leading digit run), a line starting with `-` overwrites the open recipe's
description with `line[1:].strip()`. -/
def coreTier2Step (st : List CoreRecipe × Option CoreRecipe) (rawLine : List Char) :
    List CoreRecipe × Option CoreRecipe :=
  let line := pyStrip rawLine
  if coreStartsNum line then
    (match st.2 with
     | some r => st.1 ++ [r]
     | none => st.1,
     some ⟨line.takeWhile pyIsDigit, coreStripNum line, []⟩)
  else if line.head? == some '-' && st.2.isSome then
    (st.1, st.2.map fun r => ⟨r.number, r.name, pyStrip (line.drop 1)⟩)
  else st

/-- Flush of the still-open recipe at the end of the fallback scan. -/
def coreFlushLast (st : List CoreRecipe × Option CoreRecipe) : List CoreRecipe :=
  match st.2 with
  | some r => st.1 ++ [r]
  | none => st.1

/-- `RecipeService._parse_recipe_response`: the regex pass, else the fallback
line scan.  There is no synthetic third tier: the result may be empty. -/
def parse_recipe_response (s : List Char) : List CoreRecipe :=
  let r1 := coreTier1 s
  if r1.isEmpty then coreFlushLast ((splitNl s).foldl coreTier2Step ([], none)) else r1

/-!
## `RecipeService._is_mood_based_input` (app/core/recipe_service.py)
-/

/-- `self.mood_keywords` of `app/core/recipe_service.RecipeService`. -/
def mood_keywords : List (List Char) :=
  ["さっぱり".data, "あっさり".data, "こってり".data, "ガッツリ".data, "ヘルシー".data,
   "夏バテ".data, "疲れ".data, "スタミナ".data, "温まる".data, "冷たい".data,
   "辛い".data, "甘い".data, "優しい".data, "濃厚".data, "サッパリ".data,
   "気分".data, "食べたい".data, "系".data, "な感じ".data, "的な".data,
   "元気".data, "パワー".data, "軽め".data, "重め".data, "食欲".data,
   "がっつり".data, "しっかり".data, "ボリューム".data, "満足".data,
   "和風".data, "洋風".data, "中華".data, "エスニック".data, "イタリアン".data]

/-- `self.ingredient_indicators` of `app/core/recipe_service.RecipeService`. -/
def ingredient_indicators : List (List Char) :=
  ["と".data, "や".data, "、".data, "の".data, "が残って".data, "がある".data, "を使って".data]

/-- `RecipeService._is_mood_based_input`: mood keywords are looked up in the
lowered text; the indicator count is the number of distinct indicators that
occur in the original text (each indicator contributes at most 1); two or more
indicators force the ingredient classification (`false`). -/
def is_mood_based_input (user_input : List Char) : Bool :=
  let input_lower := pyLower user_input
  let has_mood_keyword := mood_keywords.any fun k => containsSub k input_lower
  let ingredient_count := (ingredient_indicators.filter fun i => containsSub i user_input).length
  if 2 ≤ ingredient_count then false else has_mood_keyword

/-!
## `ClaudeClient` (app/core/claude_client.py)
-/

/-- `ClaudeClient._handle_bedrock_error`: the fixed error-code lookup table
with its generic fallback. -/
def handle_bedrock_error (code : List Char) : List Char :=
  if code = "ThrottlingException".data then
    "The service is currently experiencing high demand. Please try again in a moment.".data
  else if code = "ModelNotReadyException".data then
    "The AI model is preparing. Please wait a moment and try again.".data
  else if code = "ValidationException".data then
    "Invalid request format. Please check your input.".data
  else if code = "AccessDeniedException".data then
    "Access denied to the AI service.".data
  else if code = "ServiceUnavailableException".data then
    "The service is temporarily unavailable.".data
  else
    "An error occurred while processing your request.".data

/-- The body of the Bedrock HTTP response, as far as
`ClaudeClient._extract_text_from_response` inspects it: either the expected
nested text is present, or the shape is unexpected (KeyError/IndexError,
re-raised as ValueError). -/
inductive BedrockResp where
  | contentText (t : List Char)
  | malformed
deriving DecidableEq, Repr

/-- Outcome of the external `invoke_model` call of `ClaudeClient._invoke_model`:
a response body, a `ClientError` carrying an AWS error code, or any other
exception. -/
inductive InvokeOutcome where
  | returns (resp : BedrockResp)
  | raisesClient (code : List Char)
  | raisesOther
deriving DecidableEq, Repr

/-- The dict returned by `ClaudeClient.generate_completion`. -/
structure ClientResult where
  success : Bool
  content : Option (List Char)
  error : Option (List Char)
deriving DecidableEq, Repr

/-- Message of the `except Exception` branch of `generate_completion`. -/
def unexpectedErrorMsg : List Char :=
  "An unexpected error occurred while generating the response.".data

/-- `ClaudeClient.generate_completion`, with the external Bedrock call
abstracted by its outcome: a `ClientError` is mapped through
`_handle_bedrock_error`; a malformed body makes `_extract_text_from_response`
raise ValueError, which the `except Exception` branch converts to the generic
message, as does any other exception. -/
def generate_completion (prompt : List Char) (o : InvokeOutcome) : ClientResult :=
  match o with
  | .returns (.contentText t) => ⟨true, some t, none⟩
  | .returns .malformed => ⟨false, none, some unexpectedErrorMsg⟩
  | .raisesClient code => ⟨false, none, some (handle_bedrock_error code)⟩
  | .raisesOther => ⟨false, none, some unexpectedErrorMsg⟩

/-!
## `RecipeService.generate_recipe_suggestions` (app/core/recipe_service.py)
-/

/-- `RecipeService._create_ingredient_based_prompt`. -/
def create_ingredient_based_prompt (ingredients : List Char) : List Char :=
  "あなたは優秀な料理アドバイザーです。\n以下の食材を使って、美味しい晩御飯のメニューを2-3個提案してください。\n各メニューについて、簡単な説明も付けてください。\n\n食材: ".data
    ++ ingredients ++
  "\n\n提案フォーマット:\n🍽️ メニュー提案\n\n1. [メニュー名]\n   - 簡単な説明\n\n2. [メニュー名]\n   - 簡単な説明\n\n必要に応じて3つ目のメニューも提案してください。\nメニュー名は具体的で、作りたくなるような名前にしてください。\n説明は1-2文で、調理方法の特徴や味の特徴を含めてください。".data

/-- `RecipeService._create_mood_based_prompt`. -/
def create_mood_based_prompt (mood_input : List Char) : List Char :=
  "あなたはプロの料理アドバイザーです。\nユーザーの今の気分や食べたいものの希望に基づいて、ぴったりの晩御飯メニューを提案してください。\n\nユーザーの気分・希望: ".data
    ++ mood_input ++
  "\n\nこの気分にぴったり合う晩御飯メニューを2-3個提案してください。\n各メニューについて、なぜその気分に合うのか、どんな味わいや特徴があるのかも含めて説明してください。\n\n提案フォーマット:\n🍽️ メニュー提案\n\n1. [メニュー名]\n   - 簡単な説明（この気分に合う理由、味の特徴、調理のポイントなど）\n\n2. [メニュー名]\n   - 簡単な説明（この気分に合う理由、味の特徴、調理のポイントなど）\n\n必要に応じて3つ目のメニューも提案してください。\nメニュー名は具体的で、作りたくなるような名前にしてください。\n説明は2-3文で、なぜその気分にマッチするかを含めて記載してください。".data

/-- The uniform result envelope returned by `generate_recipe_suggestions`
(`success`, `recipes`, `error`, `input_type`); `recipes` and `error` are
`none` where the Python dict holds `None`. -/
structure RecipeSet where
  success : Bool
  recipes : Option (List CoreRecipe)
  error : Option (List Char)
  input_type : List Char
deriving DecidableEq, Repr

/-- `RecipeService.generate_recipe_suggestions`, with the injected Claude
client call abstracted by the outcome of its Bedrock invocation: classify,
build the prompt, call `generate_completion`, and branch on its success. -/
def generate_recipe_suggestions (user_input : List Char) (o : InvokeOutcome) : RecipeSet :=
  let is_mood_based := is_mood_based_input user_input
  let input_type := if is_mood_based then "mood".data else "ingredient".data
  let prompt :=
    if is_mood_based then create_mood_based_prompt user_input
    else create_ingredient_based_prompt user_input
  let result := generate_completion prompt o
  if !result.success then
    ⟨false, none, result.error, input_type⟩
  else
    ⟨true, some (parse_recipe_response (result.content.getD [])), none, input_type⟩


/-!
## Slack channel layer

The Slack handlers perform external calls (DynamoDB-backed ingredient storage,
asynchronous Lambda invocation, the Bedrock completion gateway, callback
POSTs).  Each handler is embedded as a function of the outcomes of those calls
(dependency injection), and additionally returns the ordered list of
externally visible side effects of interest, so that the temporal claims about
which call path invokes the completion gateway become statements about effect
traces.
-/

/-- The externally visible side effects the temporal claims talk about. -/
inductive Effect where
  | callGateway
  | invokeAsyncWorker
  | postCallback
deriving DecidableEq, BEq, Repr

/-- The fields `parse_qs` extracts from a Slack slash-command form body. -/
structure SlashCommand where
  text : List Char
  response_url : List Char
  user_id : List Char
  channel_id : List Char
deriving DecidableEq, Repr

/-- A Lambda proxy response: its HTTP status code and the `text` field of its
JSON body (headers and rich block attachments are rendering detail and are not
modelled). -/
structure LambdaResponse where
  statusCode : Nat
  bodyText : List Char
deriving DecidableEq, Repr

/-- Python `text.split(maxsplit=1)` summarised as (first token, remainder). -/
def pySplitMax1 (s : List Char) : List Char × List Char :=
  let s1 := s.dropWhile pyIsSpace
  let tok := s1.takeWhile fun c => !pyIsSpace c
  (tok, (s1.drop tok.length).dropWhile pyIsSpace)

/-- Python `str.split(',')`. -/
def splitComma : List Char → List (List Char)
  | [] => [[]]
  | c :: t =>
    match splitComma t with
    | [] => [[c]]
    | h :: r => if c == ',' then [] :: h :: r else (c :: h) :: r

/-- Helper for Python whitespace `str.split()` (accumulates the current
token reversed). -/
def pySplitWsAux : List Char → List Char → List (List Char)
  | acc, [] => if acc.isEmpty then [] else [acc.reverse]
  | acc, c :: t =>
    if pyIsSpace c then
      if acc.isEmpty then pySplitWsAux [] t else acc.reverse :: pySplitWsAux [] t
    else pySplitWsAux (c :: acc) t

/-- Python `str.split()` (split on whitespace runs, no empty fields). -/
def pySplitWs (s : List Char) : List (List Char) :=
  pySplitWsAux [] s

/-- Python `sep.join(parts)`. -/
def joinWith (sep : List Char) : List (List Char) → List Char
  | [] => []
  | [x] => x
  | x :: y :: t => x ++ sep ++ joinWith sep (y :: t)

/-- `IngredientStorage.format_ingredients_list` numbering helper
(`f"{idx}. {ingredient}\n"` for idx = 1, 2, …). -/
def formatNumbered : Nat → List (List Char) → List Char
  | _, [] => []
  | i, x :: t => (Nat.repr i).data ++ ". ".data ++ x ++ "\n".data ++ formatNumbered (i + 1) t

/-- `IngredientStorage.format_ingredients_list` (the literals of
`app/ingredient_storage.py` are mojibake-corrupted in the source; they are
transcribed here in their evidently intended decoded form — no claim depends
on them). -/
def format_ingredients_list (ingredients : List (List Char)) : List Char :=
  if ingredients.isEmpty then
    "🆕 冷蔵庫は空っぽです。`/dinner add 食材名` で食材を追加しましょう！".data
  else
    pyStrip ("❄️ 冷蔵庫の食材:\n".data ++ formatNumbered 1 ingredients)

/-!
### `app/slack_instant_responder.lambda_handler` (phase 1)
-/

/-- Outcomes of the external calls the instant responder can make: body
parsing (which may raise), the three ingredient-storage operations, and the
fire-and-forget `lambda_client.invoke` of the async processor.  An `error`
value stands for the operation raising an exception, with the exception's
string representation carried along. -/
structure InstantEnv where
  parse : Except (List Char) SlashCommand
  storageAdd : Except (List Char) Bool
  storageGet : Except (List Char) (List (List Char))
  storageClear : Except (List Char) Bool
  asyncInvoke : Except (List Char) Unit

/-- Body text of the catch-all error response (`f'❌ エラーが発生しました: ...'`). -/
def errBody (e : List Char) : List Char :=
  "❌ エラーが発生しました: ".data ++ e

/-- Body text of `_create_help_response`. -/
def helpResponseBody : List Char :=
  "🍽️ 晩御飯提案BOTの使い方".data

/-- Body text of the immediate phase-1 acknowledgment. -/
def processingAckBody : List Char :=
  "🍽️ レシピを生成中です... 少々お待ちください！".data

/-- `_handle_add_ingredients`: warn on empty arguments, parse the ingredient
list (comma-separated if a comma occurs, else whitespace-separated), call the
storage, and report; every exception is caught and answered with status 200. -/
def handle_add_ingredients (env : InstantEnv) (ingredients_text : List Char) :
    LambdaResponse × List Effect :=
  if (pyStrip ingredients_text).isEmpty then
    (⟨200, "⚠️ 冷蔵庫に追加する食材を指定してください。\n例: `/dinner add キャベツ 鶏肉`".data⟩, [])
  else
    let ingredients :=
      if containsSub "、".data ingredients_text || containsSub ",".data ingredients_text then
        ((splitComma (ingredients_text.map fun c => if c == '、' then ',' else c)).map
          pyStrip).filter (fun i => !i.isEmpty)
      else pySplitWs ingredients_text
    match env.storageAdd with
    | .error e => (⟨200, errBody e⟩, [])
    | .ok false => (⟨200, "❌ 食材の追加に失敗しました。もう一度お試しください。".data⟩, [])
    | .ok true =>
      match env.storageGet with
      | .error e => (⟨200, errBody e⟩, [])
      | .ok stored =>
        (⟨200, "✅ 冷蔵庫に食材を追加しました！\n\n".data ++ format_ingredients_list stored⟩, [])

/-- `_handle_list_ingredients`. -/
def handle_list_ingredients (env : InstantEnv) : LambdaResponse × List Effect :=
  match env.storageGet with
  | .error e => (⟨200, errBody e⟩, [])
  | .ok stored => (⟨200, format_ingredients_list stored⟩, [])

/-- `_handle_clear_ingredients`. -/
def handle_clear_ingredients (env : InstantEnv) : LambdaResponse × List Effect :=
  match env.storageClear with
  | .error e => (⟨200, errBody e⟩, [])
  | .ok true => (⟨200, "🗑️ 冷蔵庫の食材をすべて削除しました。".data⟩, [])
  | .ok false => (⟨200, "❌ 食材の削除に失敗しました。もう一度お試しください。".data⟩, [])

/-- `_handle_use_stored_ingredients`: with stored ingredients and a callback
URL it fires the async processor (the invocation attempt is the recorded
effect; on invocation failure a status-200 error body is returned). -/
def handle_use_stored_ingredients (env : InstantEnv) (response_url : List Char) :
    LambdaResponse × List Effect :=
  match env.storageGet with
  | .error e => (⟨200, errBody e⟩, [])
  | .ok [] =>
    (⟨200, "❌ 冷蔵庫に食材がありません。\n`/dinner add 食材名` で冷蔵庫に食材を追加してください。".data⟩, [])
  | .ok (i0 :: rest) =>
    if response_url.isEmpty then
      (⟨200, "🍽️ 冷蔵庫の食材（".data ++ joinWith ", ".data (i0 :: rest)
        ++ "）を使ったレシピを生成中です...".data⟩, [])
    else
      match env.asyncInvoke with
      | .ok _ =>
        (⟨200, "🍽️ 冷蔵庫の食材（".data ++ joinWith ", ".data (i0 :: rest)
          ++ "）を使ったレシピを生成中です...".data⟩, [Effect.invokeAsyncWorker])
      | .error e =>
        (⟨200, "❌ レシピ生成の開始に失敗しました: ".data ++ e⟩, [Effect.invokeAsyncWorker])

/-- `app/slack_instant_responder.lambda_handler` (the synchronous phase-1
Slack entry point): help on empty text, the four storage subcommands, and
otherwise the immediate acknowledgment after fire-and-forget dispatching the
async processor (whose invocation failure is swallowed).  The surrounding
`try` turns every exception into a status-200 error body. -/
def instant_lambda_handler (env : InstantEnv) : LambdaResponse × List Effect :=
  match env.parse with
  | .error e => (⟨200, errBody e⟩, [])
  | .ok cmd =>
    if (pyStrip cmd.text).isEmpty then (⟨200, helpResponseBody⟩, [])
    else
      let parts := pySplitMax1 cmd.text
      let sub := pyLower parts.1
      if sub = "add".data then handle_add_ingredients env parts.2
      else if sub = "list".data then handle_list_ingredients env
      else if sub = "clear".data then handle_clear_ingredients env
      else if sub = "stored".data || sub = "use".data ||
              sub = "登録".data || sub = "登録済み".data then
        handle_use_stored_ingredients env cmd.response_url
      else if cmd.response_url.isEmpty then
        (⟨200, processingAckBody⟩, [])
      else
        (⟨200, processingAckBody⟩, [Effect.invokeAsyncWorker])

/-!
### `SlackHandler.handle_slash_command` (app/handlers/slack_handler.py)
-/

/-- The call `self.recipe_service.generate_recipe_suggestions(...)` together
with its externally visible effect: the orchestrator synchronously invokes the
completion gateway (`ClaudeClient.generate_completion` →
`bedrock.invoke_model`). -/
def generate_recipe_suggestions_eff (user_input : List Char) (o : InvokeOutcome) :
    RecipeSet × List Effect :=
  (generate_recipe_suggestions user_input o, [Effect.callGateway])

/-- The `text` field of `_format_slack_response` (the rich block layout of
the non-empty case is rendering detail and is not modelled). -/
def format_slack_response_text (recipes : List CoreRecipe) : List Char :=
  if recipes.isEmpty then "recipes-not-found".data else "menu-proposal".data

/-- `SlackHandler.handle_slash_command`: verify the signature (the outcome of
`_verify_slack_signature` is injected as `sigOk`), then parse, then — in the
same synchronous call path, before any response is produced — run the full
orchestration including the completion-gateway call, and answer with status
200 (401 only for a bad signature).  The mojibake-corrupted Japanese message table
of `_create_error_response` is not transcribed; its branch returns the mapped
status with the incoming error message. -/
def handle_slash_command (sigOk : Bool) (parse : Except (List Char) SlashCommand)
    (o : InvokeOutcome) : LambdaResponse × List Effect :=
  if !sigOk then (⟨401, "Unauthorized".data⟩, [])
  else
    match parse with
    | .error _ => (⟨200, "An unexpected error occurred".data⟩, [])
    | .ok cmd =>
      if (pyStrip cmd.text).isEmpty then (⟨200, helpResponseBody⟩, [])
      else
        let res := generate_recipe_suggestions_eff cmd.text o
        if !res.1.success then
          (⟨200, res.1.error.getD []⟩, res.2)
        else
          (⟨200, format_slack_response_text ((res.1.recipes).getD [])⟩, res.2)

/-!
### `app/slack_async_processor.lambda_handler` (phase 2)
-/

/-- `app/slack_async_processor.lambda_handler`: the out-of-band worker.  It
validates its event, constructs the recipe service (outcome injected as
`svcInit`), runs `RecipeService.generate_recipe` — whose Bedrock invocation is
the recorded `callGateway` effect; the content of the generated payload is
irrelevant to the modelled observables and is elided — and delivers the result
with a callback POST to `response_url` (status injected as `postStatus`). -/
def async_lambda_handler (text response_url : List Char)
    (svcInit : Except (List Char) Unit) (postStatus : Nat) :
    LambdaResponse × List Effect :=
  if (pyStrip text).isEmpty then (⟨400, "No text provided".data⟩, [])
  else if response_url.isEmpty then (⟨400, "No response_url provided".data⟩, [])
  else
    match svcInit with
    | .error _ => (⟨500, "Service initialization failed".data⟩, [Effect.postCallback])
    | .ok _ =>
      if postStatus = 200 then
        (⟨200, "success".data⟩, [Effect.callGateway, Effect.postCallback])
      else
        (⟨500, "error".data⟩, [Effect.callGateway, Effect.postCallback])


/-!
## Claim-side auxiliary definition
-/

/-- Occurrence count as claim C2 words it: the total number of positions of
the text at which one of the connector markers starts, so repeated occurrences
of the same marker all count.  This follows the claim's wording and is to be
compared with the distinct-indicator count the source actually computes. -/
def claimOccurrenceTotal (s : List Char) : Nat :=
  (ingredient_indicators.map fun ind =>
    ((List.range (s.length + 1)).filter fun i => ind.isPrefixOf (s.drop i)).length).sum

/-!
## Shared helper lemmas
-/

/-- The `_handle_add_ingredients` branch always answers 200 and never touches
the completion gateway. -/
theorem handle_add_props (env : InstantEnv) (t : List Char) :
    (handle_add_ingredients env t).1.statusCode = 200 ∧
    ((handle_add_ingredients env t).2.contains Effect.callGateway) = false := by
  obtain ⟨p, sa, sg, sc, ai⟩ := env
  unfold handle_add_ingredients
  dsimp only
  split_ifs
  · exact ⟨rfl, rfl⟩
  · rcases sa with e | b
    · exact ⟨rfl, rfl⟩
    · cases b
      · exact ⟨rfl, rfl⟩
      · rcases sg with e2 | l
        · exact ⟨rfl, rfl⟩
        · exact ⟨rfl, rfl⟩

/-- The `_handle_list_ingredients` branch always answers 200 and never touches
the completion gateway. -/
theorem handle_list_props (env : InstantEnv) :
    (handle_list_ingredients env).1.statusCode = 200 ∧
    ((handle_list_ingredients env).2.contains Effect.callGateway) = false := by
  obtain ⟨p, sa, sg, sc, ai⟩ := env
  unfold handle_list_ingredients
  rcases sg with e | l
  · exact ⟨rfl, rfl⟩
  · exact ⟨rfl, rfl⟩

/-- The `_handle_clear_ingredients` branch always answers 200 and never
touches the completion gateway. -/
theorem handle_clear_props (env : InstantEnv) :
    (handle_clear_ingredients env).1.statusCode = 200 ∧
    ((handle_clear_ingredients env).2.contains Effect.callGateway) = false := by
  obtain ⟨p, sa, sg, sc, ai⟩ := env
  unfold handle_clear_ingredients
  rcases sc with e | b
  · exact ⟨rfl, rfl⟩
  · cases b
    · exact ⟨rfl, rfl⟩
    · exact ⟨rfl, rfl⟩

/-- The `_handle_use_stored_ingredients` branch always answers 200 and never
touches the completion gateway (it may dispatch the async worker). -/
theorem handle_use_stored_props (env : InstantEnv) (url : List Char) :
    (handle_use_stored_ingredients env url).1.statusCode = 200 ∧
    ((handle_use_stored_ingredients env url).2.contains Effect.callGateway) = false := by
  obtain ⟨p, sa, sg, sc, ai⟩ := env
  unfold handle_use_stored_ingredients
  rcases sg with e | l
  · exact ⟨rfl, rfl⟩
  · cases l with
    | nil => exact ⟨rfl, rfl⟩
    | cons i0 rest =>
      dsimp only
      split_ifs
      · exact ⟨rfl, rfl⟩
      · rcases ai with e2 | u
        · exact ⟨rfl, rfl⟩
        · exact ⟨rfl, rfl⟩

/-- Every branch of the phase-1 instant responder answers with HTTP status 200
and an effect trace that never contains a completion-gateway call. -/
theorem instant_responder_props (env : InstantEnv) :
    (instant_lambda_handler env).1.statusCode = 200 ∧
    ((instant_lambda_handler env).2.contains Effect.callGateway) = false := by
  obtain ⟨p, sa, sg, sc, ai⟩ := env
  cases p with
  | error e => exact ⟨rfl, rfl⟩
  | ok cmd =>
    unfold instant_lambda_handler
    dsimp only
    split_ifs
    · exact ⟨rfl, rfl⟩
    · exact handle_add_props ⟨Except.ok cmd, sa, sg, sc, ai⟩ _
    · exact handle_list_props ⟨Except.ok cmd, sa, sg, sc, ai⟩
    · exact handle_clear_props ⟨Except.ok cmd, sa, sg, sc, ai⟩
    · exact handle_use_stored_props ⟨Except.ok cmd, sa, sg, sc, ai⟩ _
    · exact ⟨rfl, rfl⟩
    · exact ⟨rfl, rfl⟩

/-!
## The claims
-/

/-- **C1** (corrected).  `parse_recipe_text` is a total Lean function (so it
raises no exception) and returns at least one `Recipe` for every input,
non-empty inputs included.  The half of the original claim concerning
`_parse_recipe_response` fails: see `claim1_counterexample`. -/
theorem claim1_parse_recipe_text_total_nonempty :
    ∀ s : List Char, 1 ≤ (parse_recipe_text s).length := by
  intro s
  unfold parse_recipe_text
  cases h1 : tier1 s with
  | nil =>
    cases h2 : tier2 s with
    | nil => simp [h1, h2]
    | cons a t => simp [h1, h2]
  | cons a t => simp [h1]

/-- **C1** counterexample: `RecipeService._parse_recipe_response` has no
synthetic third tier, so on the non-empty input `"美味しいです。"` (no numbered
line) it returns the empty sequence, refuting "always returns ≥ 1 entry for
non-empty text" for that function. -/
theorem claim1_counterexample :
    ("美味しいです。".data).isEmpty = false ∧
    parse_recipe_response "美味しいです。".data = [] := by decide

/-- **C2** (corrected).  The source counts *distinct* indicators that occur in
the original text (each of the seven contributes at most 1), not total
occurrences; two or more distinct indicators force the `ingredient`
classification regardless of mood keywords, and the claim's concrete example
classifies as `ingredient`. -/
theorem claim2_two_distinct_indicators_force_ingredient :
    (∀ s : List Char,
      2 ≤ (ingredient_indicators.filter fun i => containsSub i s).length →
      is_mood_based_input s = false) ∧
    is_mood_based_input "キャベツと鶏肉、にんじん".data = false := by
  constructor
  · intro s h
    unfold is_mood_based_input
    dsimp only
    rw [if_pos h]
  · decide

/-- **C2** witness for `claim2_two_distinct_indicators_force_ingredient`: the
example text contains two distinct indicators (`と` and `、`). -/
theorem claim2_witness :
    2 ≤ (ingredient_indicators.filter fun i =>
      containsSub i "キャベツと鶏肉、にんじん".data).length ∧
    is_mood_based_input "キャベツと鶏肉、にんじん".data = false :=
  ⟨by decide,
   claim2_two_distinct_indicators_force_ingredient.1 "キャベツと鶏肉、にんじん".data (by decide)⟩

/-- **C2** counterexample: in `"肉と魚と野菜が食べたい"` the marker `と` occurs
twice, so the claim's total-occurrence count is ≥ 2 and the claim demands
`ingredient`; but the source counts `と` once, finds the mood keyword
`食べたい`, and classifies the text as mood-based. -/
theorem claim2_counterexample :
    2 ≤ claimOccurrenceTotal "肉と魚と野菜が食べたい".data ∧
    is_mood_based_input "肉と魚と野菜が食べたい".data = true := by decide

/-- **C3** (corrected).  The phase-1 instant responder
(`slack_instant_responder.lambda_handler`) never invokes the completion
gateway on any input — it only dispatches the phase-2 worker — and the
phase-2 worker (`slack_async_processor.lambda_handler`) is where the gateway
call happens; the middle conjunct shows a generation-reaching command being
answered with the immediate acknowledgment and exactly the async-worker
dispatch.  The original claim fails for the other cited symbol,
`SlackHandler.handle_slash_command`: see `claim3_counterexample`. -/
theorem claim3_phase1_no_gateway :
    (∀ env : InstantEnv,
      ((instant_lambda_handler env).2.contains Effect.callGateway) = false) ∧
    instant_lambda_handler
        ⟨Except.ok ⟨"キャベツと鶏肉".data, "https://hooks.slack.example".data,
            "U1".data, "C1".data⟩,
         Except.ok true, Except.ok [], Except.ok true, Except.ok ()⟩ =
      (⟨200, processingAckBody⟩, [Effect.invokeAsyncWorker]) ∧
    ((async_lambda_handler "キャベツと鶏肉".data "https://hooks.slack.example".data
        (Except.ok ()) 200).2.contains Effect.callGateway) = true := by
  refine ⟨fun env => (instant_responder_props env).2, by decide, by decide⟩

/-- **C3** counterexample: `SlackHandler.handle_slash_command` — one of the two
symbols the claim is about — invokes the completion gateway synchronously, in
the same call path that produces its response, for a valid signed command with
non-empty text. -/
theorem claim3_counterexample :
    ((handle_slash_command true
        (Except.ok ⟨"キャベツと鶏肉".data, "".data, "U1".data, "C1".data⟩)
        (InvokeOutcome.returns (BedrockResp.contentText "1. A\n- x".data))).2.contains
      Effect.callGateway) = true := by decide

/-- **C4** (corrected).  For every failure outcome of the gateway call the
orchestrator returns `success = false`, `recipes = None` (absent — not an
empty sequence), the user-facing message mapped from the outcome, and the
classification of the input; on success it returns the parse of the content,
which may itself be the empty sequence. -/
theorem claim4_envelope_shape :
    (∀ input code : List Char,
      generate_recipe_suggestions input (InvokeOutcome.raisesClient code) =
        ⟨false, none, some (handle_bedrock_error code),
         if is_mood_based_input input then "mood".data else "ingredient".data⟩) ∧
    (∀ input : List Char,
      generate_recipe_suggestions input InvokeOutcome.raisesOther =
        ⟨false, none, some unexpectedErrorMsg,
         if is_mood_based_input input then "mood".data else "ingredient".data⟩) ∧
    (∀ input : List Char,
      generate_recipe_suggestions input (InvokeOutcome.returns BedrockResp.malformed) =
        ⟨false, none, some unexpectedErrorMsg,
         if is_mood_based_input input then "mood".data else "ingredient".data⟩) ∧
    (∀ input content : List Char,
      generate_recipe_suggestions input
          (InvokeOutcome.returns (BedrockResp.contentText content)) =
        ⟨true, some (parse_recipe_response content), none,
         if is_mood_based_input input then "mood".data else "ingredient".data⟩) :=
  ⟨fun input code => rfl, fun input => rfl, fun input => rfl, fun input content => rfl⟩

/-- **C4** counterexample: on a successful gateway call whose content has no
numbered line, the envelope has `success = true` yet an *empty* recipes
sequence — refuting "the recipes sequence is empty only when success ==
false" — and on a failure outcome `recipes` is absent (`None`), not an empty
sequence. -/
theorem claim4_counterexample :
    (generate_recipe_suggestions "キャベツと鶏肉、にんじん".data
        (InvokeOutcome.returns (BedrockResp.contentText "美味しいです。".data))).success
      = true ∧
    (generate_recipe_suggestions "キャベツと鶏肉、にんじん".data
        (InvokeOutcome.returns (BedrockResp.contentText "美味しいです。".data))).recipes
      = some [] ∧
    (generate_recipe_suggestions "キャベツと鶏肉、にんじん".data
        (InvokeOutcome.raisesClient "ThrottlingException".data)).recipes = none := by
  decide

/-- **C5** (confirmed).  When neither the tier-1 regex nor the tier-2 line
scan yields an entry, `parse_recipe_text` returns exactly one synthetic recipe
whose name is the fixed placeholder and whose description is the text itself
when it has at most 100 characters, else its first 100 characters followed by
the ellipsis marker. -/
theorem claim5_tier3_fallback :
    ∀ s : List Char, tier1 s = [] → tier2 s = [] →
      parse_recipe_text s =
        [⟨"提案されたメニュー".data,
          if s.length > 100 then s.take 100 ++ "...".data else s⟩] := by
  intro s h1 h2
  unfold parse_recipe_text fallbackRecipe
  simp [h1, h2]

/-- **C5** witness for `claim5_tier3_fallback` at `"美味しいです。"`. -/
theorem claim5_witness :
    tier1 "美味しいです。".data = [] ∧ tier2 "美味しいです。".data = [] ∧
    parse_recipe_text "美味しいです。".data =
      [⟨"提案されたメニュー".data, "美味しいです。".data⟩] :=
  ⟨by decide, by decide,
   (claim5_tier3_fallback "美味しいです。".data (by decide) (by decide)).trans (by decide)⟩

/-- **C6** (corrected).  The non-empty-name invariant fails for tier-1/tier-2
entries (see `claim6_counterexample`); it does hold for the tier-3 synthetic
recipe, whose name is the fixed non-blank placeholder. -/
theorem claim6_fallback_name_nonblank :
    ∀ s : List Char, tier1 s = [] → tier2 s = [] →
      ((parse_recipe_text s).all fun r => !(pyStrip r.name).isEmpty) = true := by
  intro s h1 h2
  have hp : parse_recipe_text s = [fallbackRecipe s] := by
    unfold parse_recipe_text
    simp [h1, h2]
  rw [hp]
  show (!(pyStrip "提案されたメニュー".data).isEmpty && true) = true
  decide

/-- **C6** witness for `claim6_fallback_name_nonblank` at `"美味しいです。"`. -/
theorem claim6_witness :
    tier1 "美味しいです。".data = [] ∧ tier2 "美味しいです。".data = [] ∧
    ((parse_recipe_text "美味しいです。".data).all fun r => !(pyStrip r.name).isEmpty) = true :=
  ⟨by decide, by decide, claim6_fallback_name_nonblank "美味しいです。".data (by decide) (by decide)⟩

/-- **C6** counterexample: the input `"1."` (a numbered line with no title) is
parsed by the tier-2 line scan into a single recipe whose name is empty, so
not every parsed recipe has a name that is non-empty after trimming. -/
theorem claim6_counterexample :
    ((parse_recipe_text "1.".data).all fun r => !(pyStrip r.name).isEmpty) = false := by
  decide

/-- **C7** (confirmed).  In the tier-2 line scan a dash/bullet line overwrites
the open recipe's description (so of several dash lines after one numbered
line the last wins), and the recipe still open when the lines are exhausted is
flushed into the result; end to end, `"1. A\n・x\n・y"` parses to the single
recipe `A` with description `y`. -/
theorem claim7_tier2_overwrite_and_flush :
    (∀ (acc : List Recipe) (r : Recipe) (w : List Char),
      (pyStrip w).isEmpty = false → startsNum (pyStrip w) = false →
      startsDash (pyStrip w) = true →
      tier2Step (acc, some r) w = (acc, some ⟨r.name, stripDashMarker (pyStrip w)⟩)) ∧
    (∀ (s : List Char) (acc : List Recipe) (r : Recipe),
      (splitNl (pyStrip s)).foldl tier2Step ([], none) = (acc, some r) →
      tier2 s = acc ++ [r]) ∧
    parse_recipe_text "1. A\n・x\n・y".data = [⟨"A".data, "y".data⟩] := by
  refine ⟨?_, ?_, by decide⟩
  · intro acc r w h1 h2 h3
    simp [tier2Step, h1, h2, h3]
  · intro s acc r h
    simp only [tier2]
    rw [h]
    rfl

/-- **C7** witness for `claim7_tier2_overwrite_and_flush`: a dash line
overwrites the previous description `x` of the open recipe `A`. -/
theorem claim7_witness :
    (pyStrip "・y".data).isEmpty = false ∧ startsNum (pyStrip "・y".data) = false ∧
    startsDash (pyStrip "・y".data) = true ∧
    tier2Step ([], some ⟨"A".data, "x".data⟩) "・y".data =
      ([], some ⟨"A".data, stripDashMarker (pyStrip "・y".data)⟩) :=
  ⟨by decide, by decide, by decide,
   claim7_tier2_overwrite_and_flush.1 [] ⟨"A".data, "x".data⟩ "・y".data
     (by decide) (by decide) (by decide)⟩

/-- **C8** (confirmed).  `_handle_bedrock_error` answers a non-empty message
for every code: each of the five known codes maps to its specific message and
every other code falls through to the fixed generic message. -/
theorem claim8_error_mapping_totality :
    (∀ code : List Char, 1 ≤ (handle_bedrock_error code).length) ∧
    handle_bedrock_error "ThrottlingException".data =
      "The service is currently experiencing high demand. Please try again in a moment.".data ∧
    handle_bedrock_error "ModelNotReadyException".data =
      "The AI model is preparing. Please wait a moment and try again.".data ∧
    handle_bedrock_error "ValidationException".data =
      "Invalid request format. Please check your input.".data ∧
    handle_bedrock_error "AccessDeniedException".data =
      "Access denied to the AI service.".data ∧
    handle_bedrock_error "ServiceUnavailableException".data =
      "The service is temporarily unavailable.".data ∧
    (∀ code : List Char,
      code = "ThrottlingException".data ∨ code = "ModelNotReadyException".data ∨
      code = "ValidationException".data ∨ code = "AccessDeniedException".data ∨
      code = "ServiceUnavailableException".data ∨
      handle_bedrock_error code = "An error occurred while processing your request.".data) := by
  refine ⟨?_, by decide, by decide, by decide, by decide, by decide, ?_⟩
  · intro code
    unfold handle_bedrock_error
    split_ifs <;> decide
  · intro code
    by_cases h1 : code = "ThrottlingException".data
    · exact Or.inl h1
    by_cases h2 : code = "ModelNotReadyException".data
    · exact Or.inr (Or.inl h2)
    by_cases h3 : code = "ValidationException".data
    · exact Or.inr (Or.inr (Or.inl h3))
    by_cases h4 : code = "AccessDeniedException".data
    · exact Or.inr (Or.inr (Or.inr (Or.inl h4)))
    by_cases h5 : code = "ServiceUnavailableException".data
    · exact Or.inr (Or.inr (Or.inr (Or.inr (Or.inl h5))))
    refine Or.inr (Or.inr (Or.inr (Or.inr (Or.inr ?_))))
    unfold handle_bedrock_error
    rw [if_neg h1, if_neg h2, if_neg h3, if_neg h4, if_neg h5]

/-- **C9** (confirmed).  The classifier is a total Lean function (so it raises
no exception on any string); on the empty string no mood keyword is found and
no indicator occurs, so the default path returns `ingredient`
(`is_mood_based_input "" = false`). -/
theorem claim9_classifier_empty_default :
    (mood_keywords.any fun k => containsSub k (pyLower "".data)) = false ∧
    (ingredient_indicators.filter fun i => containsSub i "".data).length = 0 ∧
    is_mood_based_input "".data = false := by decide

/-- **C10** (confirmed).  The instant responder answers HTTP status 200 for
every input, the branches where an internal exception is raised included —
the error is reported only in the response body. -/
theorem claim10_always_status_200 :
    ∀ env : InstantEnv, (instant_lambda_handler env).1.statusCode = 200 :=
  fun env => (instant_responder_props env).1

end DinnerBot
